import Mathlib

/-!
Verification of `map.go` (package `mapping`).

A shallow embedding of `ShowAvailableMaps` and `DisplayMapWithLocation`, together with
a bit-level model of the `%f` verb of Go's `fmt` package on `float64` operands, and the
properties of the generated markup.

Go strings are byte sequences; here they are Lean `String`s (sequences of Unicode
scalar values).  The only non-ASCII character in the source is the copyright sign of
the `osm` template, so substring statements carry over unchanged.
-/

namespace Mapping

/-! ## `float64` and the `%f` verb -/

/-- An IEEE-754 binary64 value, given by its bit pattern (taken modulo `2^64`):
one sign bit, eleven exponent bits, fifty-two fraction bits. -/
structure Float64 where
  bits : Nat

/-- Sign bit (bit 63). -/
def Float64.sign (x : Float64) : Bool := decide ((x.bits / 2 ^ 63) % 2 = 1)

/-- Biased exponent (bits 52..62). -/
def Float64.expo (x : Float64) : Nat := (x.bits / 2 ^ 52) % 2048

/-- Fraction field (bits 0..51). -/
def Float64.frac (x : Float64) : Nat := x.bits % 2 ^ 52

/-- Nearest integer to `num / den`, ties going to the even neighbour. -/
def roundHalfEven (num den : Nat) : Nat :=
  let q := num / den
  let r := num % den
  if den < 2 * r ∨ (2 * r = den ∧ q % 2 = 1) then q + 1 else q

/-- The magnitude of a finite `x` in millionths, correctly rounded (ties to even):
`|x| = m * 2 ^ (e - 1075)` with `m` the significand (implicit leading bit for normal
numbers) and `e` the effective biased exponent. -/
def Float64.micro (x : Float64) : Nat :=
  let m := if x.expo = 0 then x.frac else 2 ^ 52 + x.frac
  let e := if x.expo = 0 then 1 else x.expo
  if 1075 ≤ e then m * 2 ^ (e - 1075) * 10 ^ 6
  else roundHalfEven (m * 10 ^ 6) (2 ^ (1075 - e))

/-- Decimal digits of `n`, left-padded with zeros to six characters. -/
def pad6 (n : Nat) : List Char :=
  let ds := Nat.toDigits 10 n
  List.replicate (6 - ds.length) '0' ++ ds

/-- The text `fmt` produces for a `float64` under the verb `%f` (no flags, default
precision 6): `NaN`, `+Inf`, `-Inf`, or an optional minus sign, the integer part, a
point and exactly six fraction digits. -/
def fmtF (x : Float64) : String :=
  if x.expo = 2047 then
    if x.frac ≠ 0 then "NaN" else if x.sign then "-Inf" else "+Inf"
  else
    String.mk ((if x.sign then ['-'] else []) ++ Nat.toDigits 10 (x.micro / 10 ^ 6)
      ++ '.' :: pad6 (x.micro % 10 ^ 6))

/-- Expansion of a format string against its `float64` operands: each `%f` consumes
the next operand, `%%` is a literal percent sign, and a `%f` without an operand is
reported the way `fmt` does.  Other verbs and surplus operands do not occur in
`map.go` and are not modelled. -/
def sprintfChars : List Char → List Float64 → List Char
  | [], _ => []
  | [c], _ => [c]
  | c :: d :: rest, args =>
    if c = '%' ∧ d = 'f' then
      match args with
      | a :: args' => (fmtF a).data ++ sprintfChars rest args'
      | [] => "%!f(MISSING)".data ++ sprintfChars rest []
    else if c = '%' ∧ d = '%' then '%' :: sprintfChars rest args
    else c :: sprintfChars (d :: rest) args

/-- The call `fmt.Sprintf(format, args...)` for `float64` operands. -/
def Sprintf (format : String) (args : List Float64) : String :=
  String.mk (sprintfChars format.data args)

/-! ## The format strings of `DisplayMapWithLocation` -/

/-- The raw format string of the google case of `DisplayMapWithLocation`. -/
def googleTemplate : String :=
  "\n" ++
  "\t\t<script>\n" ++
  "\t\t\tfunction initMap() \x7b\n" ++
  "\t\t\t  var location = \x7blat: %f, lng: %f\x7d;\n" ++
  "\t\t\t  var map = new google.maps.Map(document.getElementById('map'), \x7b\n" ++
  "\t\t\t\tzoom: 15,\n" ++
  "\t\t\t\tcenter: location\n" ++
  "\t\t\t  \x7d);\n" ++
  "\t\t\t  var marker = new google.maps.Marker(\x7b\n" ++
  "\t\t\t\tposition: location,\n" ++
  "\t\t\t\tmap: map\n" ++
  "\t\t\t  \x7d);\n" ++
  "\t\t\t\x7d\n" ++
  "\t\t</script>\n" ++
  "\t\t<script src='https://maps.googleapis.com/maps/api/js?key=YOUR_GOOGLE_API_KEY&callback=initMap' async defer></script>\n" ++
  "\t\t"

/-- The raw format string of the cedarmaps case of `DisplayMapWithLocation`. -/
def cedarmapsTemplate : String :=
  "\n" ++
  "\t\t<link href='https://api.cedarmaps.com/cedarmaps.js/v1.8.1/cedarmaps.css' rel='stylesheet' />\n" ++
  "\t\t<script src='https://api.cedarmaps.com/cedarmaps.js/v1.8.1/cedarmaps.js'></script>\n" ++
  "\t\t<script>\n" ++
  "\t\t\tL.cedarmaps.accessToken = 'YOUR_CEDAR_ACCESS_TOKEN';\n" ++
  "\t\t\tvar map = L.cedarmaps.map('map', 'https://api.cedarmaps.com/v1/tiles/cedarmaps.streets.json?access_token=YOUR_CEDAR_ACCESS_TOKEN', \x7b\n" ++
  "\t\t\t  center: [%f, %f],\n" ++
  "\t\t\t  zoom: 15\n" ++
  "\t\t\t\x7d);\n" ++
  "\t\t\tvar marker = L.marker([%f, %f]).addTo(map);\n" ++
  "\t\t</script>\n" ++
  "\t\t"

/-- The raw format string of the neshan case of `DisplayMapWithLocation`. -/
def neshanTemplate : String :=
  "\n" ++
  "\t\t<link href='https://static.neshan.org/sdk/leaflet/1.4.0/leaflet.css' rel='stylesheet' type='text/css'>\n" ++
  "\t\t<script src='https://static.neshan.org/sdk/leaflet/1.4.0/leaflet.js' type='text/javascript'></script>\n" ++
  "\t\t<script>\n" ++
  "\t\t\tvar map = new L.Map('map', \x7b\n" ++
  "\t\t\t\tkey: 'YOUR_NESHAN_API_KEY',\n" ++
  "\t\t\t\tmaptype: 'dreamy',\n" ++
  "\t\t\t\tpoi: true,\n" ++
  "\t\t\t\ttraffic: false,\n" ++
  "\t\t\t\tcenter: [%f, %f],\n" ++
  "\t\t\t\tzoom: 14\n" ++
  "\t\t\t\x7d);\n" ++
  "\t\t\tvar marker = L.marker([%f, %f]).addTo(map);\n" ++
  "\t\t</script>\n" ++
  "\t\t"

/-- The raw format string of the mapir case of `DisplayMapWithLocation`. -/
def mapirTemplate : String :=
  "\n" ++
  "\t\t<script src='https://cdn.map.ir/web-sdk/1.4.2/mapbox-gl.js'></script>\n" ++
  "\t\t<link rel='stylesheet' href='https://cdn.map.ir/web-sdk/1.4.2/mapbox-gl.css' />\n" ++
  "\t\t<script>\n" ++
  "\t\t\tmapboxgl.accessToken = 'YOUR_MAPIR_ACCESS_TOKEN';\n" ++
  "\t\t\tvar map = new mapboxgl.Map(\x7b\n" ++
  "\t\t\t  container: 'map',\n" ++
  "\t\t\t  style: 'https://map.ir/vector/styles/main/mapir-xyz-light-style.json',\n" ++
  "\t\t\t  center: [%f, %f],\n" ++
  "\t\t\t  zoom: 15\n" ++
  "\t\t\t\x7d);\n" ++
  "\t\t\tnew mapboxgl.Marker().setLngLat([%f, %f]).addTo(map);\n" ++
  "\t\t</script>\n" ++
  "\t\t"

/-- The raw format string of the parsimap case of `DisplayMapWithLocation`. -/
def parsimapTemplate : String :=
  "\n" ++
  "\t\t<script src='https://api.parsimap.com/web/v1/js/main.js'></script>\n" ++
  "\t\t<script>\n" ++
  "\t\t\tvar map = L.map('map').setView([%f, %f], 15);\n" ++
  "\t\t\tL.tileLayer('https://api.parsimap.com/tile/parsimap-streets-v1/\x7bz\x7d/\x7bx\x7d/\x7by\x7d.png?key=YOUR_PARSIMAP_KEY', \x7b\n" ++
  "\t\t\t\tmaxZoom: 18,\n" ++
  "\t\t\t\x7d).addTo(map);\n" ++
  "\t\t\tvar marker = L.marker([%f, %f]).addTo(map);\n" ++
  "\t\t</script>\n" ++
  "\t\t"

/-- The raw format string of the mapbox case of `DisplayMapWithLocation`. -/
def mapboxTemplate : String :=
  "\n" ++
  "\t\t<script src='https://api.mapbox.com/mapbox-gl-js/v2.5.0/mapbox-gl.js'></script>\n" ++
  "\t\t<link href='https://api.mapbox.com/mapbox-gl-js/v2.5.0/mapbox-gl.css' rel='stylesheet' />\n" ++
  "\t\t<script>\n" ++
  "\t\t\tmapboxgl.accessToken = 'YOUR_MAPBOX_ACCESS_TOKEN';\n" ++
  "\t\t\tvar map = new mapboxgl.Map(\x7b\n" ++
  "\t\t\t  container: 'map',\n" ++
  "\t\t\t  style: 'mapbox://styles/mapbox/streets-v11',\n" ++
  "\t\t\t  center: [%f, %f],\n" ++
  "\t\t\t  zoom: 15\n" ++
  "\t\t\t\x7d);\n" ++
  "\t\t\tnew mapboxgl.Marker().setLngLat([%f, %f]).addTo(map);\n" ++
  "\t\t</script>\n" ++
  "\t\t"

/-- The raw format string of the osm case of `DisplayMapWithLocation`. -/
def osmTemplate : String :=
  "\n" ++
  "\t\t<link rel='stylesheet' href='https://unpkg.com/leaflet@1.7.1/dist/leaflet.css' />\n" ++
  "\t\t<script src='https://unpkg.com/leaflet@1.7.1/dist/leaflet.js'></script>\n" ++
  "\t\t<script>\n" ++
  "\t\t\tvar map = L.map('map').setView([%f, %f], 15);\n" ++
  "\t\t\tL.tileLayer('https://\x7bs\x7d.tile.openstreetmap.org/\x7bz\x7d/\x7bx\x7d/\x7by\x7d.png', \x7b\n" ++
  "\t\t\t  maxZoom: 19,\n" ++
  "\t\t\t  attribution: '© OpenStreetMap contributors'\n" ++
  "\t\t\t\x7d).addTo(map);\n" ++
  "\t\t\tvar marker = L.marker([%f, %f]).addTo(map);\n" ++
  "\t\t</script>\n" ++
  "\t\t"

/-- The raw format string of the bing case of `DisplayMapWithLocation`. -/
def bingTemplate : String :=
  "\n" ++
  "\t\t<script type='text/javascript' src='https://www.bing.com/api/maps/mapcontrol?callback=GetMap&key=YOUR_BING_MAPS_KEY' async defer></script>\n" ++
  "\t\t<script>\n" ++
  "\t\t\tfunction GetMap() \x7b\n" ++
  "\t\t\t\tvar map = new Microsoft.Maps.Map('#map', \x7b\n" ++
  "\t\t\t\t\tcenter: new Microsoft.Maps.Location(%f, %f),\n" ++
  "\t\t\t\t\tzoom: 15\n" ++
  "\t\t\t\t\x7d);\n" ++
  "\t\t\t\tvar center = map.getCenter();\n" ++
  "\t\t\t\tvar pin = new Microsoft.Maps.Pushpin(center, \x7b\n" ++
  "\t\t\t\t\ttitle: 'Location'\n" ++
  "\t\t\t\t\x7d);\n" ++
  "\t\t\t\tmap.entities.push(pin);\n" ++
  "\t\t\t\x7d\n" ++
  "\t\t</script>\n" ++
  "\t\t"

/-- The raw format string of the yandex case of `DisplayMapWithLocation`. -/
def yandexTemplate : String :=
  "\n" ++
  "\t\t<script src='https://api-maps.yandex.ru/2.1/?apikey=YOUR_YANDEX_API_KEY&lang=en_US' type='text/javascript'></script>\n" ++
  "\t\t<script>\n" ++
  "\t\t\tymaps.ready(init);\n" ++
  "\t\t\tfunction init()\x7b\n" ++
  "\t\t\t\tvar myMap = new ymaps.Map('map', \x7b\n" ++
  "\t\t\t\t\tcenter: [%f, %f],\n" ++
  "\t\t\t\t\tzoom: 15\n" ++
  "\t\t\t\t\x7d);\n" ++
  "\t\t\t\tvar myPlacemark = new ymaps.Placemark([%f, %f], \x7b\n" ++
  "\t\t\t\t\thintContent: 'Location',\n" ++
  "\t\t\t\t\tballoonContent: 'Selected Location'\n" ++
  "\t\t\t\t\x7d);\n" ++
  "\t\t\t\tmyMap.geoObjects.add(myPlacemark);\n" ++
  "\t\t\t\x7d\n" ++
  "\t\t</script>\n" ++
  "\t\t"

/-! ## The two exported functions -/

/-- The Go function `ShowAvailableMaps`: the map literal, as its key/value pairs in
source order. -/
def ShowAvailableMaps : Unit → List (String × String) := fun _ =>
  [ ("google", "Google Maps"),
    ("cedarmaps", "CedarMaps (Iran)"),
    ("neshan", "Neshan (Iran)"),
    ("mapir", "Map.ir (Iran)"),
    ("parsimap", "ParsiMap (Iran)"),
    ("mapbox", "Mapbox"),
    ("osm", "OpenStreetMap"),
    ("bing", "Bing Maps"),
    ("yandex", "Yandex Maps") ]

/-- The Go function `DisplayMapWithLocation`. -/
def DisplayMapWithLocation (latitude longitude : Float64) (provider : String) : String :=
  let provider := if provider = "" then "google" else provider
  let html := "<div id='map' style='width: 100%; height: 400px;'></div>"
  match provider with
  | "google" => html ++ Sprintf googleTemplate [latitude, longitude]
  | "cedarmaps" => html ++ Sprintf cedarmapsTemplate [latitude, longitude, latitude, longitude]
  | "neshan" => html ++ Sprintf neshanTemplate [latitude, longitude, latitude, longitude]
  | "mapir" => html ++ Sprintf mapirTemplate [longitude, latitude, longitude, latitude]
  | "parsimap" => html ++ Sprintf parsimapTemplate [latitude, longitude, latitude, longitude]
  | "mapbox" => html ++ Sprintf mapboxTemplate [longitude, latitude, longitude, latitude]
  | "osm" => html ++ Sprintf osmTemplate [latitude, longitude, latitude, longitude]
  | "bing" => html ++ Sprintf bingTemplate [latitude, longitude]
  | "yandex" => html ++ Sprintf yandexTemplate [latitude, longitude, latitude, longitude]
  | _ => html ++ "<p>Provider not supported.</p>"

/-! ## Vocabulary for statements about the generated text -/

/-- Number of positions of `s` at which the (non-empty) pattern `pat` occurs. -/
def countOcc (pat : List Char) : List Char → Nat
  | [] => 0
  | c :: s => (if pat.isPrefixOf (c :: s) then 1 else 0) + countOcc pat s

/-- Number of occurrences of the text `pat` in `s`. -/
def occurrences (pat s : String) : Nat := countOcc pat.data s.data

/-- The text `s` has `pat` as a contiguous substring. -/
def Contains (s pat : String) : Prop := pat.data <:+: s.data

/-- The text `s` begins with `pre`. -/
def StartsWith (s pre : String) : Prop := pre.data <+: s.data

/-- The nine provider keys that have a case of their own in the switch. -/
def recognizedKeys : List String :=
  ["google", "cedarmaps", "neshan", "mapir", "parsimap", "mapbox", "osm", "bing", "yandex"]

/-- The placeholder element every result starts with. -/
def placeholder : String := "<div id='map' style='width: 100%; height: 400px;'></div>"

/-- The complete result of the default case. -/
def fallbackOutput : String :=
  "<div id='map' style='width: 100%; height: 400px;'></div><p>Provider not supported.</p>"

/-! ## Auxiliary definitions for the proofs -/

/-- Characters of a finite `%f` rendering. -/
def isNumChar (c : Char) : Bool := c.isDigit || c == '-' || c == '.'

/-- Characters a `%f` rendering can begin with. -/
def isFirstChar (c : Char) : Bool := c.isDigit || c == '-' || c == '+' || c == 'N'

/-- The two texts differ at some position they both have. -/
def clash : List Char → List Char → Bool
  | a :: as, b :: bs => a != b || clash as bs
  | _, _ => false

/-- When `pat` agrees with all of `m` and is strictly longer, the character of `pat`
that comes right after. -/
def overhang : List Char → List Char → Option Char
  | [], _ => none
  | a :: _, [] => some a
  | a :: as, b :: bs => if a = b then overhang as bs else none

/-- No occurrence of `pat` can begin in (or right after) the literal `l` and run into
a `%f` rendering that follows it. -/
def joinOK (pat l : List Char) : Bool :=
  l.tails.all fun m => match overhang pat m with
    | some a => !isFirstChar a
    | none => true

/-- No occurrence of `pat` can begin inside a `%f` rendering. -/
def valueOK (pat : List Char) : Bool :=
  (match pat with
    | [] => false
    | a :: _ => !isNumChar a) &&
  ["NaN", "+Inf", "-Inf"].all fun s => s.data.tails.all fun t => t.isEmpty || clash pat t

/-- The literal pieces of a format string: the text before the first `%f`, and the
texts that follow each `%f`. -/
def pieces : List Char → List Char × List (List Char)
  | [] => ([], [])
  | [c] => ([c], [])
  | c :: d :: rest =>
    if c = '%' ∧ d = 'f' then ([], (pieces rest).1 :: (pieces rest).2)
    else (c :: (pieces (d :: rest)).1, (pieces (d :: rest)).2)

/-- Every percent sign of the format starts a `%f`. -/
def plainVerbs : List Char → Bool
  | [] => true
  | [c] => c != '%'
  | c :: d :: rest =>
    if c = '%' then d == 'f' && plainVerbs rest else plainVerbs (d :: rest)

/-- Literal pieces interleaved with values: `p0 ++ v1 ++ p1 ++ v2 ++ p2 ++ ...`. -/
def weave (p0 : List Char) : List (List Char) → List (List Char) → List Char
  | p :: ps, v :: vs => p0 ++ (v ++ weave p ps vs)
  | _, _ => p0

/-- Occurrences of `pat` inside the literal pieces. -/
def countPieces (pat p0 : List Char) : List (List Char) → Nat
  | [] => countOcc pat p0
  | p :: ps => countOcc pat p0 + countPieces pat p ps

/-- Every piece that is followed by a value passes `joinOK`. -/
def joinsOK (pat p0 : List Char) : List (List Char) → Bool
  | [] => true
  | p :: ps => joinOK pat p0 && joinsOK pat p ps

/-- What follows the placeholder element in a result. -/
def afterPlaceholder (s : String) : String := String.mk (s.data.drop placeholder.data.length)

/-- The case of the switch a provider string selects: the key of a provider case, or
nothing for the default case. -/
def selectedCase (provider : String) : Option String :=
  let provider := if provider = "" then "google" else provider
  if provider ∈ recognizedKeys then some provider else none

/-- Keys of a Go map given by its entries. -/
def keysOf (m : List (String × String)) : List String := m.map Prod.fst

/-- Two renderings separated by a comma and a blank, as in the templates. -/
def pairText (a b : Float64) : String := fmtF a ++ ", " ++ fmtF b

/-- The `float64` nearest to 35.7. -/
def sampleLatitude : Float64 := ⟨0x4041D9999999999A⟩

/-- The `float64` nearest to 51.4. -/
def sampleLongitude : Float64 := ⟨0x4049B33333333333⟩

/-- The result is a provider block rather than the fallback: it starts with the
placeholder element, what follows the placeholder contains a `<script` opening tag, and
the fallback text does not occur in it. -/
def RendersProviderBlock (out : String) : Prop :=
  StartsWith out placeholder ∧ Contains (afterPlaceholder out) "<script" ∧
    ¬ Contains out "Provider not supported."

/-- The marker-creation calls of the provider SDKs. -/
def markerCalls : List String :=
  ["new google.maps.Marker(", "L.marker(", "new mapboxgl.Marker(",
    "new Microsoft.Maps.Pushpin(", "new ymaps.Placemark("]

/-- The placeholder credential of each provider block that has one. -/
def credentialOf : List (String × String) :=
  [("google", "YOUR_GOOGLE_API_KEY"), ("cedarmaps", "YOUR_CEDAR_ACCESS_TOKEN"),
    ("neshan", "YOUR_NESHAN_API_KEY"), ("mapir", "YOUR_MAPIR_ACCESS_TOKEN"),
    ("parsimap", "YOUR_PARSIMAP_KEY"), ("mapbox", "YOUR_MAPBOX_ACCESS_TOKEN"),
    ("bing", "YOUR_BING_MAPS_KEY"), ("yandex", "YOUR_YANDEX_API_KEY")]

/-- For the keys whose marker is given a coordinate pair: the key, the text that opens
the pair of the map centre, and the text that opens the pair of the marker. -/
def markerAnchors : List (String × String × String) :=
  [("cedarmaps", "center: [", "L.marker(["),
    ("neshan", "center: [", "L.marker(["),
    ("mapir", "center: [", "new mapboxgl.Marker().setLngLat(["),
    ("parsimap", "setView([", "L.marker(["),
    ("mapbox", "center: [", "new mapboxgl.Marker().setLngLat(["),
    ("osm", "setView([", "L.marker(["),
    ("yandex", "center: [", "new ymaps.Placemark([")]

/-- A text on which `valueOK` and `joinOK` can be relied: it begins with a character
a `%f` rendering can begin with, and the pattern clashes with each of its non-empty
suffixes. -/
def Inert (pat X : List Char) : Prop :=
  (∃ c cs, X = c :: cs ∧ isFirstChar c = true) ∧
    ∀ t, t ≠ [] → t <:+ X → clash pat t = true

/-- The format string of the case selected by a recognized key. -/
def formatOf (key : String) : String :=
  if key = "google" then googleTemplate
  else if key = "cedarmaps" then cedarmapsTemplate
  else if key = "neshan" then neshanTemplate
  else if key = "mapir" then mapirTemplate
  else if key = "parsimap" then parsimapTemplate
  else if key = "mapbox" then mapboxTemplate
  else if key = "osm" then osmTemplate
  else if key = "bing" then bingTemplate
  else if key = "yandex" then yandexTemplate
  else ""

/-- The operand list of the `Sprintf` call of the case selected by a recognized key. -/
def operandsOf (key : String) (latitude longitude : Float64) : List Float64 :=
  if key = "google" ∨ key = "bing" then [latitude, longitude]
  else if key = "mapir" ∨ key = "mapbox" then [longitude, latitude, longitude, latitude]
  else [latitude, longitude, latitude, longitude]

/-- Number of operands of that call. -/
def operandCount (key : String) : Nat :=
  if key = "google" ∨ key = "bing" then 2 else 4

/-- Occurrences of `pat` in the literal text of `pre` followed by the block of `key`. -/
def staticCount (pre pat key : String) : Nat :=
  countPieces pat.data (pre.data ++ (pieces (formatOf key).data).1) (pieces (formatOf key).data).2

/-- The side conditions under which `staticCount` is the number of occurrences in the
rendered text, whatever the coordinates. -/
def staticOK (pre pat key : String) : Bool :=
  valueOK pat.data &&
    joinsOK pat.data (pre.data ++ (pieces (formatOf key).data).1) (pieces (formatOf key).data).2

/-- The coordinate pair in the order a provider expects: longitude first when
`swapped`, latitude first otherwise. -/
def orderedPair (swapped : Bool) (latitude longitude : Float64) : String :=
  if swapped then pairText longitude latitude else pairText latitude longitude

/-- The results for `key` are fixed text around two copies of the coordinate pair:
the first copy between `o1` and `c1`, the second between `o2` and `c2`; nothing else
varies with the coordinates. -/
def TwoPairForm (key : String) (swapped : Bool) (o1 c1 o2 c2 : String) : Prop :=
  ∃ s0 s1 s2 : String, ∀ latitude longitude : Float64,
    DisplayMapWithLocation latitude longitude key =
      s0 ++ o1 ++ orderedPair swapped latitude longitude ++ c1 ++ s1 ++
        o2 ++ orderedPair swapped latitude longitude ++ c2 ++ s2

/-- The results for `key` are fixed text around one interpolation of the latitude and
one of the longitude, in that order: `o`, latitude, `sep`, longitude, `c`. -/
def OnePairForm (key o sep c : String) : Prop :=
  ∃ s0 s1 : String, ∀ latitude longitude : Float64,
    DisplayMapWithLocation latitude longitude key =
      s0 ++ o ++ fmtF latitude ++ sep ++ fmtF longitude ++ c ++ s1

/-- Decidable test on the literal pieces of the format of `key` that yields
`TwoPairForm`. -/
def twoPairCheck (key : String) (swapped : Bool) (o1 c1 o2 c2 : String) : Bool :=
  match (pieces (formatOf key).data).2 with
  | [p1, p2, p3, p4] =>
    let p0 := placeholder.data ++ (pieces (formatOf key).data).1
    !decide (key = "google" ∨ key = "bing") &&
    (decide (key = "mapir" ∨ key = "mapbox") == swapped) &&
    p1 == ", ".data && p3 == ", ".data &&
    p0.take (p0.length - o1.data.length) ++ o1.data == p0 &&
    c1.data ++ ((p2.drop c1.data.length).take (p2.length - c1.data.length - o2.data.length)
      ++ o2.data) == p2 &&
    c2.data ++ p4.drop c2.data.length == p4
  | _ => false

/-- Decidable test on the literal pieces of the format of `key` that yields
`OnePairForm`. -/
def onePairCheck (key o sep c : String) : Bool :=
  match (pieces (formatOf key).data).2 with
  | [p1, p2] =>
    let p0 := placeholder.data ++ (pieces (formatOf key).data).1
    decide (key = "google" ∨ key = "bing") &&
    p1 == sep.data &&
    p0.take (p0.length - o.data.length) ++ o.data == p0 &&
    c.data ++ p2.drop c.data.length == p2
  | _ => false

/-! ## Lemmas on decimal digits and on the `%f` rendering -/

theorem digitChar_isDigit (m : Nat) (h : m < 10) : (Nat.digitChar m).isDigit = true := by
  interval_cases m <;> decide

theorem toDigitsCore_isDigit (fuel : Nat) : ∀ (n : Nat) (ds : List Char),
    (∀ c ∈ ds, c.isDigit = true) → ∀ c ∈ Nat.toDigitsCore 10 fuel n ds, c.isDigit = true := by
  induction fuel with
  | zero => intro n ds h; simpa [Nat.toDigitsCore] using h
  | succ f ih =>
    intro n ds h
    have hd : (Nat.digitChar (n % 10)).isDigit = true :=
      digitChar_isDigit _ (Nat.mod_lt _ (by decide))
    have hds : ∀ c ∈ Nat.digitChar (n % 10) :: ds, c.isDigit = true := by
      intro c hc
      rcases List.mem_cons.1 hc with rfl | hc
      · exact hd
      · exact h c hc
    simp only [Nat.toDigitsCore]
    split
    · exact hds
    · exact ih _ _ hds

theorem toDigitsCore_ne_nil (fuel : Nat) : ∀ (n : Nat) (ds : List Char),
    ds ≠ [] → Nat.toDigitsCore 10 fuel n ds ≠ [] := by
  induction fuel with
  | zero => intro n ds h; simpa [Nat.toDigitsCore] using h
  | succ f ih =>
    intro n ds _
    simp only [Nat.toDigitsCore]
    split
    · exact List.cons_ne_nil _ _
    · exact ih _ _ (List.cons_ne_nil _ _)

theorem toDigits_isDigit (n : Nat) : ∀ c ∈ Nat.toDigits 10 n, c.isDigit = true :=
  toDigitsCore_isDigit _ _ _ (by simp)

theorem toDigits_ne_nil (n : Nat) : Nat.toDigits 10 n ≠ [] := by
  simp only [Nat.toDigits, Nat.toDigitsCore]
  split
  · exact List.cons_ne_nil _ _
  · exact toDigitsCore_ne_nil _ _ _ (List.cons_ne_nil _ _)

theorem pad6_isDigit (n : Nat) : ∀ c ∈ pad6 n, c.isDigit = true := by
  intro c hc
  simp only [pad6, List.mem_append, List.mem_replicate] at hc
  rcases hc with ⟨_, rfl⟩ | hc
  · decide
  · exact toDigits_isDigit n c hc

/-- Shape of a `%f` rendering: one of the three special texts, or a text over digits,
minus and point that begins with a digit or a minus. -/
theorem fmtF_shape (x : Float64) :
    (fmtF x = "NaN" ∨ fmtF x = "+Inf" ∨ fmtF x = "-Inf") ∨
    (∃ c cs, (fmtF x).data = c :: cs ∧ isFirstChar c = true ∧ isNumChar c = true ∧
      ∀ d ∈ cs, isNumChar d = true) := by
  unfold fmtF
  by_cases he : x.expo = 2047
  · left
    rw [if_pos he]
    by_cases hf : x.frac ≠ 0
    · rw [if_pos hf]; exact Or.inl rfl
    · rw [if_neg hf]
      cases x.sign
      · exact Or.inr (Or.inl rfl)
      · exact Or.inr (Or.inr rfl)
  · right
    rw [if_neg he]
    have hnum : ∀ c : Char, c.isDigit = true → isNumChar c = true := by
      intro c hc; simp [isNumChar, hc]
    have hfirst : ∀ c : Char, c.isDigit = true → isFirstChar c = true := by
      intro c hc; simp [isFirstChar, hc]
    have htail : ∀ d ∈ '.' :: pad6 (x.micro % 10 ^ 6), isNumChar d = true := by
      intro d hd
      rcases List.mem_cons.1 hd with rfl | hd
      · decide
      · exact hnum d (pad6_isDigit _ d hd)
    obtain ⟨c, cs, hcs⟩ := List.exists_cons_of_ne_nil (toDigits_ne_nil (x.micro / 10 ^ 6))
    have hall := toDigits_isDigit (x.micro / 10 ^ 6)
    rw [hcs] at hall
    have hc : c.isDigit = true := hall c (List.mem_cons_self _ _)
    have hrest : ∀ d ∈ cs ++ '.' :: pad6 (x.micro % 10 ^ 6), isNumChar d = true := by
      intro d hd
      rcases List.mem_append.1 hd with hd | hd
      · exact hnum d (hall d (List.mem_cons_of_mem _ hd))
      · exact htail d hd
    cases x.sign
    · refine ⟨c, cs ++ '.' :: pad6 (x.micro % 10 ^ 6), ?_, hfirst c hc, hnum c hc, hrest⟩
      rw [hcs]; rfl
    · refine ⟨'-', c :: cs ++ '.' :: pad6 (x.micro % 10 ^ 6), ?_, by decide, by decide, ?_⟩
      · rw [hcs]; rfl
      · intro d hd
        rcases List.mem_cons.1 hd with rfl | hd
        · exact hnum d hc
        · exact hrest d hd

/-! ## Lemmas on counting occurrences -/

theorem countOcc_cons (pat : List Char) (c : Char) (s : List Char) :
    countOcc pat (c :: s) = (if pat.isPrefixOf (c :: s) then 1 else 0) + countOcc pat s := rfl

theorem isPrefixOf_cons_cons (a b : Char) (as bs : List Char) :
    (a :: as).isPrefixOf (b :: bs) = (a == b && as.isPrefixOf bs) := rfl

theorem clash_isPrefixOf : ∀ (pat t r : List Char), clash pat t = true →
    pat.isPrefixOf (t ++ r) = false := by
  intro pat
  induction pat with
  | nil => intro t r h; cases t <;> simp [clash] at h
  | cons a as ih =>
    intro t r h
    cases t with
    | nil => simp [clash] at h
    | cons b bs =>
      simp only [clash, Bool.or_eq_true, bne_iff_ne, ne_eq] at h
      rw [List.cons_append, isPrefixOf_cons_cons]
      simp only [Bool.and_eq_false_imp, beq_iff_eq]
      intro hab
      rcases h with h | h
      · exact absurd hab h
      · exact ih bs r h

theorem overhang_isPrefixOf : ∀ (pat m : List Char) (x : Char) (r : List Char),
    (∀ a, overhang pat m = some a → a ≠ x) →
    pat.isPrefixOf (m ++ x :: r) = pat.isPrefixOf m := by
  intro pat
  induction pat with
  | nil => intro m x r _; simp [List.isPrefixOf]
  | cons a as ih =>
    intro m x r h
    cases m with
    | nil =>
      have hax : a ≠ x := h a (by simp [overhang])
      simp [List.isPrefixOf, hax]
    | cons b bs =>
      rw [List.cons_append, isPrefixOf_cons_cons, isPrefixOf_cons_cons]
      by_cases hab : a = b
      · subst hab
        have h2 : ∀ c, overhang as bs = some c → c ≠ x := by
          intro c hc; exact h c (by simp [overhang, hc])
        rw [ih bs x r h2]
      · have : (a == b) = false := by simpa using hab
        rw [this]; rfl

theorem countOcc_skip (pat : List Char) : ∀ (X r : List Char),
    (∀ t, t ≠ [] → t <:+ X → clash pat t = true) →
    countOcc pat (X ++ r) = countOcc pat r := by
  intro X
  induction X with
  | nil => intro r _; rfl
  | cons c X ih =>
    intro r h
    have h1 : pat.isPrefixOf (c :: X ++ r) = false :=
      clash_isPrefixOf pat (c :: X) r (h _ (List.cons_ne_nil _ _) (List.suffix_refl _))
    have h2 : countOcc pat (X ++ r) = countOcc pat r :=
      ih r (fun t ht hs => h t ht (hs.trans (List.suffix_cons c X)))
    rw [List.cons_append] at h1
    rw [List.cons_append, countOcc_cons, h1, h2]
    simp

theorem countOcc_append_left (pat : List Char) (x : Char) (r : List Char) : ∀ l : List Char,
    (∀ m, m <:+ l → ∀ a, overhang pat m = some a → a ≠ x) →
    countOcc pat (l ++ x :: r) = countOcc pat l + countOcc pat (x :: r) := by
  intro l
  induction l with
  | nil => intro _; simp [countOcc]
  | cons c l ih =>
    intro h
    have h1 : pat.isPrefixOf (c :: l ++ x :: r) = pat.isPrefixOf (c :: l) :=
      overhang_isPrefixOf pat (c :: l) x r (h _ (List.suffix_refl _))
    have h2 := ih (fun m hm => h m (hm.trans (List.suffix_cons c l)))
    rw [List.cons_append] at h1
    rw [List.cons_append, countOcc_cons, countOcc_cons, h1, h2]
    omega

theorem joinOK_spec (pat l : List Char) (h : joinOK pat l = true) (x : Char)
    (hx : isFirstChar x = true) :
    ∀ m, m <:+ l → ∀ a, overhang pat m = some a → a ≠ x := by
  intro m hm a ha hax
  simp only [joinOK, List.all_eq_true] at h
  have := h m ((List.mem_tails m l).2 hm)
  rw [ha] at this
  subst hax
  simp [hx] at this

theorem countOcc_insert (pat l X r : List Char) (hl : joinOK pat l = true)
    (hX : Inert pat X) :
    countOcc pat (l ++ (X ++ r)) = countOcc pat l + countOcc pat r := by
  obtain ⟨⟨c, cs, rfl, hc⟩, hcl⟩ := hX
  have h1 := countOcc_append_left pat c (cs ++ r) l (joinOK_spec pat l hl c hc)
  have h2 := countOcc_skip pat (c :: cs) r hcl
  simp only [List.cons_append] at h1 h2 ⊢
  rw [h1, h2]

theorem inert_fmtF (pat : List Char) (h : valueOK pat = true) (x : Float64) :
    Inert pat (fmtF x).data := by
  simp only [valueOK, Bool.and_eq_true, List.all_eq_true] at h
  obtain ⟨hhead, hspec⟩ := h
  have special : ∀ s ∈ ["NaN", "+Inf", "-Inf"], ∀ t, t ≠ [] → t <:+ s.data →
      clash pat t = true := by
    intro s hs t ht hsuf
    have := hspec s hs t ((List.mem_tails t s.data).2 hsuf)
    cases t with
    | nil => exact absurd rfl ht
    | cons b bs => simpa using this
  rcases fmtF_shape x with (h1 | h1 | h1) | ⟨c, cs, hdata, hfirst, hnum, hrest⟩
  · rw [h1]
    exact ⟨⟨'N', ['a', 'N'], rfl, by decide⟩, special _ (by simp)⟩
  · rw [h1]
    exact ⟨⟨'+', ['I', 'n', 'f'], rfl, by decide⟩, special _ (by simp)⟩
  · rw [h1]
    exact ⟨⟨'-', ['I', 'n', 'f'], rfl, by decide⟩, special _ (by simp)⟩
  · rw [hdata]
    refine ⟨⟨c, cs, rfl, hfirst⟩, ?_⟩
    intro t ht hsuf
    cases pat with
    | nil => simp at hhead
    | cons a as =>
      cases t with
      | nil => exact absurd rfl ht
      | cons b bs =>
        have hb : isNumChar b = true := by
          have hmem : b ∈ c :: cs := hsuf.subset (List.mem_cons_self _ _)
          rcases List.mem_cons.1 hmem with rfl | hmem
          · exact hnum
          · exact hrest b hmem
        have hab : a ≠ b := by
          rintro rfl
          simp [hb] at hhead
        simp [clash, hab]

theorem countOcc_weave (pat : List Char) (hv : valueOK pat = true) :
    ∀ (ps : List (List Char)) (p0 : List Char) (args : List Float64),
    ps.length = args.length → joinsOK pat p0 ps = true →
    countOcc pat (weave p0 ps (args.map fun a => (fmtF a).data)) = countPieces pat p0 ps := by
  intro ps
  induction ps with
  | nil => intro p0 args _ _; cases args <;> rfl
  | cons p ps ih =>
    intro p0 args hlen hj
    cases args with
    | nil => simp at hlen
    | cons a args =>
      simp only [joinsOK, Bool.and_eq_true] at hj
      simp only [List.map_cons, weave, countPieces]
      rw [countOcc_insert pat p0 _ _ hj.1 (inert_fmtF pat hv a)]
      rw [ih p args (by simpa using hlen) hj.2]

theorem sprintfChars_eq_weave : ∀ (fmt : List Char) (args : List Float64),
    plainVerbs fmt = true → (pieces fmt).2.length = args.length →
    sprintfChars fmt args =
      weave (pieces fmt).1 (pieces fmt).2 (args.map fun a => (fmtF a).data) := by
  intro fmt
  induction fmt using pieces.induct with
  | case1 => intro args _ _; simp [sprintfChars, pieces, weave]
  | case2 c => intro args _ _; simp [sprintfChars, pieces, weave]
  | case3 c d rest hcd ih =>
    intro args hp hlen
    obtain ⟨rfl, rfl⟩ := hcd
    simp only [pieces, and_self, if_true, List.length_cons] at hlen ⊢
    cases args with
    | nil => simp at hlen
    | cons a args =>
      simp only [plainVerbs, if_true, Bool.and_eq_true, beq_self_eq_true, true_and] at hp
      simp only [sprintfChars, and_self, if_true, List.map_cons, weave, List.nil_append]
      rw [ih args hp (by simpa using hlen)]
  | case4 c d rest hcd ih =>
    intro args hp hlen
    have hc : c ≠ '%' := by
      intro hc
      subst hc
      simp only [plainVerbs, if_true, Bool.and_eq_true, beq_iff_eq] at hp
      exact hcd ⟨rfl, hp.1⟩
    have hp2 : plainVerbs (d :: rest) = true := by
      simpa [plainVerbs, hc] using hp
    simp only [pieces, hcd, if_false] at hlen ⊢
    have e := ih args hp2 hlen
    simp only [sprintfChars, hcd, if_false, hc, false_and]
    rw [e]
    cases hps : (pieces (d :: rest)).2 with
    | nil => simp [weave]
    | cons p ps =>
      cases args with
      | nil => simp [weave]
      | cons a args => simp [weave]

theorem weave_append_left (h p0 : List Char) (ps vs : List (List Char)) :
    h ++ weave p0 ps vs = weave (h ++ p0) ps vs := by
  cases ps with
  | nil => simp [weave]
  | cons p ps =>
    cases vs with
    | nil => simp [weave]
    | cons v vs => simp [weave]

/-! ## The result for a recognized key, in terms of literal pieces -/

theorem display_recognized (latitude longitude : Float64) (key : String)
    (hk : key ∈ recognizedKeys) :
    DisplayMapWithLocation latitude longitude key =
      placeholder ++ Sprintf (formatOf key) (operandsOf key latitude longitude) := by
  simp only [recognizedKeys, List.mem_cons, List.mem_singleton, List.not_mem_nil, or_false] at hk
  rcases hk with rfl | rfl | rfl | rfl | rfl | rfl | rfl | rfl | rfl <;> rfl

theorem operandsOf_length (key : String) (latitude longitude : Float64) :
    (operandsOf key latitude longitude).length = operandCount key := by
  unfold operandsOf operandCount
  split
  · rfl
  · split <;> rfl

set_option maxRecDepth 100000 in
theorem formats_wellformed : ∀ key ∈ recognizedKeys,
    plainVerbs (formatOf key).data = true ∧
      (pieces (formatOf key).data).2.length = operandCount key := by
  decide

theorem occurrences_sprintf (pre pat key : String) (hk : key ∈ recognizedKeys)
    (h : staticOK pre pat key = true) (latitude longitude : Float64) :
    occurrences pat (pre ++ Sprintf (formatOf key) (operandsOf key latitude longitude)) =
      staticCount pre pat key := by
  simp only [staticOK, Bool.and_eq_true] at h
  obtain ⟨hp, hn⟩ := formats_wellformed key hk
  have hlen := operandsOf_length key latitude longitude
  unfold occurrences staticCount Sprintf
  rw [String.data_append, sprintfChars_eq_weave _ _ hp (hn.trans hlen.symm), weave_append_left]
  exact countOcc_weave pat.data h.1 _ _ _ (hn.trans hlen.symm) h.2

theorem countOcc_pos_iff (pat : List Char) : ∀ s : List Char,
    0 < countOcc pat s ↔ (pat <:+: s ∧ s ≠ []) := by
  intro s
  induction s with
  | nil => simp [countOcc]
  | cons c s ih =>
    rw [countOcc_cons, List.infix_cons_iff]
    by_cases hp : pat.isPrefixOf (c :: s) = true
    · have hp2 : pat <+: c :: s := List.isPrefixOf_iff_prefix.1 hp
      simp [hp, hp2]
    · have hp2 : ¬ pat <+: c :: s := fun h => hp (List.isPrefixOf_iff_prefix.2 h)
      have hs : pat <:+: s → s ≠ [] := by
        intro h hnil
        subst hnil
        have hpat : pat = [] := List.eq_nil_of_infix_nil h
        subst hpat
        exact hp2 (List.nil_prefix)
      simp only [hp, hp2, if_false, Nat.zero_add, false_or, ne_eq, not_false_eq_true, and_true,
        reduceCtorEq, Bool.false_eq_true]
      rw [ih]
      exact ⟨fun h => h.1, fun h => ⟨h, hs h⟩⟩

theorem contains_iff (s pat : String) (hp : pat.data ≠ []) :
    Contains s pat ↔ 0 < occurrences pat s := by
  unfold Contains occurrences
  rw [countOcc_pos_iff]
  constructor
  · intro h
    refine ⟨h, ?_⟩
    intro hs
    rw [hs] at h
    exact hp (List.eq_nil_of_infix_nil h)
  · exact fun h => h.1

theorem display_unrecognized (latitude longitude : Float64) (p : String) (hne : p ≠ "")
    (hk : p ∉ recognizedKeys) : DisplayMapWithLocation latitude longitude p = fallbackOutput := by
  simp only [recognizedKeys, List.mem_cons, List.mem_singleton, List.not_mem_nil, or_false,
    not_or] at hk
  obtain ⟨h1, h2, h3, h4, h5, h6, h7, h8, h9⟩ := hk
  unfold DisplayMapWithLocation
  simp only [hne, if_false]
  rfl

theorem occurrences_display (pat key : String) (hk : key ∈ recognizedKeys)
    (h : staticOK placeholder pat key = true) (latitude longitude : Float64) :
    occurrences pat (DisplayMapWithLocation latitude longitude key) =
      staticCount placeholder pat key := by
  rw [display_recognized latitude longitude key hk]
  exact occurrences_sprintf placeholder pat key hk h latitude longitude

theorem occurrences_block (pat key : String) (hk : key ∈ recognizedKeys)
    (h : staticOK "" pat key = true) (latitude longitude : Float64) :
    occurrences pat (afterPlaceholder (DisplayMapWithLocation latitude longitude key)) =
      staticCount "" pat key := by
  have e : afterPlaceholder (DisplayMapWithLocation latitude longitude key) =
      "" ++ Sprintf (formatOf key) (operandsOf key latitude longitude) := by
    rw [display_recognized latitude longitude key hk]
    apply String.ext
    simp only [afterPlaceholder, String.data_append, List.drop_left]
    rfl
  rw [e]
  exact occurrences_sprintf "" pat key hk h latitude longitude

theorem startsWith_placeholder (latitude longitude : Float64) (p : String) :
    StartsWith (DisplayMapWithLocation latitude longitude p) placeholder := by
  by_cases hk : p ∈ recognizedKeys
  · rw [display_recognized latitude longitude p hk]
    exact ⟨_, (String.data_append _ _).symm⟩
  · by_cases hne : p = ""
    · subst hne
      have : DisplayMapWithLocation latitude longitude "" =
          DisplayMapWithLocation latitude longitude "google" := rfl
      rw [this, display_recognized latitude longitude "google" (by decide)]
      exact ⟨_, (String.data_append _ _).symm⟩
    · rw [display_unrecognized latitude longitude p hne hk]
      exact ⟨"<p>Provider not supported.</p>".data, by decide⟩

/-! ## The claims -/

/-- C1: for every latitude and longitude and every non-empty provider string that is
not one of the nine keys, `DisplayMapWithLocation` returns exactly the placeholder
element followed by the fallback paragraph; that text has no `<script`, and it is the
same for all coordinates. -/
theorem unsupported_provider_fallback (latitude longitude : Float64) (p : String)
    (hne : p ≠ "") (hk : p ∉ recognizedKeys) :
    DisplayMapWithLocation latitude longitude p =
        "<div id='map' style='width: 100%; height: 400px;'></div><p>Provider not supported.</p>" ∧
      ¬ Contains (DisplayMapWithLocation latitude longitude p) "<script" ∧
      ∀ latitude' longitude' : Float64,
        DisplayMapWithLocation latitude' longitude' p =
          DisplayMapWithLocation latitude longitude p := by
  have h := display_unrecognized latitude longitude p hne hk
  refine ⟨h, ?_, fun a b => (display_unrecognized a b p hne hk).trans h.symm⟩
  rw [h, contains_iff _ _ (by decide)]
  decide

/-- C1 at the provider strings `foo`, `Google` and ` osm` with coordinates 35.7, 51.4. -/
theorem unsupported_provider_fallback_witness :
    ("foo" ≠ "" ∧ "foo" ∉ recognizedKeys ∧
      DisplayMapWithLocation sampleLatitude sampleLongitude "foo" =
        "<div id='map' style='width: 100%; height: 400px;'></div><p>Provider not supported.</p>") ∧
    ("Google" ≠ "" ∧ "Google" ∉ recognizedKeys ∧
      DisplayMapWithLocation sampleLatitude sampleLongitude "Google" =
        "<div id='map' style='width: 100%; height: 400px;'></div><p>Provider not supported.</p>") ∧
    (" osm" ≠ "" ∧ " osm" ∉ recognizedKeys ∧
      DisplayMapWithLocation sampleLatitude sampleLongitude " osm" =
        "<div id='map' style='width: 100%; height: 400px;'></div><p>Provider not supported.</p>") :=
  ⟨⟨by decide, by decide,
      (unsupported_provider_fallback sampleLatitude sampleLongitude "foo"
        (by decide) (by decide)).1⟩,
    ⟨by decide, by decide,
      (unsupported_provider_fallback sampleLatitude sampleLongitude "Google"
        (by decide) (by decide)).1⟩,
    ⟨by decide, by decide,
      (unsupported_provider_fallback sampleLatitude sampleLongitude " osm"
        (by decide) (by decide)).1⟩⟩

/-- C2: for every latitude and longitude the result for the empty provider string is
identical to the result for `google`. -/
theorem empty_provider_is_google (latitude longitude : Float64) :
    DisplayMapWithLocation latitude longitude "" =
      DisplayMapWithLocation latitude longitude "google" := rfl

theorem display_data (latitude longitude : Float64) (key : String)
    (hk : key ∈ recognizedKeys) :
    (DisplayMapWithLocation latitude longitude key).data =
      weave (placeholder.data ++ (pieces (formatOf key).data).1) (pieces (formatOf key).data).2
        ((operandsOf key latitude longitude).map fun a => (fmtF a).data) := by
  obtain ⟨hp, hn⟩ := formats_wellformed key hk
  have hlen := operandsOf_length key latitude longitude
  rw [display_recognized latitude longitude key hk, String.data_append]
  unfold Sprintf
  rw [sprintfChars_eq_weave _ _ hp (hn.trans hlen.symm), weave_append_left]

theorem twoPairForm_of_check (key : String) (swapped : Bool) (o1 c1 o2 c2 : String)
    (hk : key ∈ recognizedKeys) (h : twoPairCheck key swapped o1 c1 o2 c2 = true) :
    TwoPairForm key swapped o1 c1 o2 c2 := by
  unfold twoPairCheck at h
  split at h
  next p1 p2 p3 p4 hps =>
    simp only [Bool.and_eq_true, Bool.not_eq_true', decide_eq_false_iff_not, beq_iff_eq] at h
    obtain ⟨⟨⟨⟨⟨⟨hgb, hsw⟩, h1⟩, h3⟩, h0⟩, h2⟩, h4⟩ := h
    obtain ⟨s0, h0⟩ : ∃ s0, s0 ++ o1.data = placeholder.data ++ (pieces (formatOf key).data).1 :=
      ⟨_, h0⟩
    obtain ⟨s1, h2⟩ : ∃ s1, c1.data ++ (s1 ++ o2.data) = p2 := ⟨_, h2⟩
    obtain ⟨s2, h4⟩ : ∃ s2, c2.data ++ s2 = p4 := ⟨_, h4⟩
    refine ⟨String.mk s0, String.mk s1, String.mk s2, fun latitude longitude => ?_⟩
    apply String.ext
    rw [display_data latitude longitude key hk, hps, ← h0, ← h2, ← h4, h1, h3]
    cases swapped
    · have hops : operandsOf key latitude longitude =
          [latitude, longitude, latitude, longitude] := by
        have hm : ¬ (key = "mapir" ∨ key = "mapbox") := by simpa using hsw
        simp only [operandsOf, hgb, hm, if_false]
      rw [hops]
      simp [weave, orderedPair, pairText, String.data_append]
    · have hops : operandsOf key latitude longitude =
          [longitude, latitude, longitude, latitude] := by
        have hm : key = "mapir" ∨ key = "mapbox" := by simpa using hsw
        simp only [operandsOf, hgb, hm, if_false, if_true]
      rw [hops]
      simp [weave, orderedPair, pairText, String.data_append]
  next => simp at h

theorem onePairForm_of_check (key o sep c : String)
    (hk : key ∈ recognizedKeys) (h : onePairCheck key o sep c = true) :
    OnePairForm key o sep c := by
  unfold onePairCheck at h
  split at h
  next p1 p2 hps =>
    simp only [Bool.and_eq_true, decide_eq_true_eq, beq_iff_eq] at h
    obtain ⟨⟨⟨hgb, h1⟩, h0⟩, h2⟩ := h
    obtain ⟨s0, h0⟩ : ∃ s0, s0 ++ o.data = placeholder.data ++ (pieces (formatOf key).data).1 :=
      ⟨_, h0⟩
    obtain ⟨s1, h2⟩ : ∃ s1, c.data ++ s1 = p2 := ⟨_, h2⟩
    refine ⟨String.mk s0, String.mk s1, fun latitude longitude => ?_⟩
    apply String.ext
    have hops : operandsOf key latitude longitude = [latitude, longitude] := by
      simp only [operandsOf, hgb, if_true]
    rw [display_data latitude longitude key hk, hps, ← h0, ← h2, h1, hops]
    simp [weave, String.data_append]
  next => simp at h

set_option maxRecDepth 100000 in
theorem pair_forms :
    twoPairCheck "mapir" true "center: [" "]" "setLngLat([" "])" = true ∧
    twoPairCheck "mapbox" true "center: [" "]" "setLngLat([" "])" = true ∧
    twoPairCheck "cedarmaps" false "center: [" "]" "L.marker([" "])" = true ∧
    twoPairCheck "neshan" false "center: [" "]" "L.marker([" "])" = true ∧
    twoPairCheck "parsimap" false "setView([" "], 15);" "L.marker([" "])" = true ∧
    twoPairCheck "osm" false "setView([" "], 15);" "L.marker([" "])" = true ∧
    twoPairCheck "yandex" false "center: [" "]" "new ymaps.Placemark([" "]" = true ∧
    onePairCheck "google" "\x7blat: " ", lng: " "\x7d" = true ∧
    onePairCheck "bing" "new Microsoft.Maps.Location(" ", " ")" = true := by
  decide

set_option maxRecDepth 100000 in
theorem static_div : ∀ key ∈ recognizedKeys,
    staticOK placeholder "<div id='map'" key = true ∧
      staticCount placeholder "<div id='map'" key = 1 := by
  decide

set_option maxRecDepth 100000 in
theorem static_script : ∀ key ∈ recognizedKeys,
    staticOK "" "<script" key = true ∧ staticCount "" "<script" key = 2 := by
  decide

set_option maxRecDepth 100000 in
theorem static_unsupported : ∀ key ∈ recognizedKeys,
    staticOK placeholder "Provider not supported." key = true ∧
      staticCount placeholder "Provider not supported." key = 0 := by
  decide

set_option maxRecDepth 100000 in
theorem static_your : ∀ key ∈ recognizedKeys,
    staticOK "" "YOUR_" key = true ∧ (key ≠ "osm" → 0 < staticCount "" "YOUR_" key) ∧
      (key = "osm" → staticCount "" "YOUR_" key = 0) := by
  decide

set_option maxRecDepth 100000 in
theorem static_credentials : ∀ kc ∈ credentialOf,
    kc.1 ∈ recognizedKeys ∧ kc.2.data ≠ [] ∧ staticOK "" kc.2 kc.1 = true ∧
      0 < staticCount "" kc.2 kc.1 ∧ "YOUR_".data.isPrefixOf kc.2.data = true := by
  decide

set_option maxRecDepth 100000 in
theorem static_markers : ∀ key ∈ recognizedKeys,
    (∀ m ∈ markerCalls, staticOK placeholder m key = true) ∧
      (markerCalls.map fun m => staticCount placeholder m key).sum = 1 := by
  decide

set_option maxRecDepth 100000 in
theorem static_zoom : ∀ key ∈ recognizedKeys,
    staticOK placeholder "zoom: 14" key = true ∧ staticOK placeholder "zoom: 15" key = true ∧
      staticOK placeholder "], 15);" key = true ∧
      staticCount placeholder "zoom: 14" key = (if key = "neshan" then 1 else 0) ∧
      staticCount placeholder "zoom: 15" key =
        (if key ∈ ["google", "cedarmaps", "mapir", "mapbox", "bing", "yandex"] then 1 else 0) ∧
      staticCount placeholder "], 15);" key = (if key ∈ ["parsimap", "osm"] then 1 else 0) := by
  decide

set_option maxRecDepth 100000 in
theorem marker_forms : ∀ e ∈ markerAnchors,
    e.1 ∈ recognizedKeys ∧
      twoPairCheck e.1 (decide (e.1 = "mapir" ∨ e.1 = "mapbox")) e.2.1 "]" e.2.2 "]" = true := by
  decide

theorem keysOf_catalog : keysOf (ShowAvailableMaps ()) = recognizedKeys := rfl

theorem not_contains_unsupported (latitude longitude : Float64) (key : String)
    (hk : key ∈ recognizedKeys) :
    ¬ Contains (DisplayMapWithLocation latitude longitude key) "Provider not supported." := by
  rw [contains_iff _ _ (by decide),
    occurrences_display _ key hk (static_unsupported key hk).1, (static_unsupported key hk).2]
  decide

set_option maxRecDepth 100000 in
theorem static_script_kinds : ∀ key ∈ recognizedKeys,
    staticOK "" "<script>" key = true ∧ staticCount "" "<script>" key = 1 ∧
      staticOK "" " src='" key = true ∧ staticCount "" " src='" key = 1 ∧
      staticOK "" "<script src='" key = true ∧
      staticOK "" "<script type='text/javascript' src='" key = true ∧
      staticCount "" "<script src='" key +
        staticCount "" "<script type='text/javascript' src='" key = 1 := by
  decide

theorem renders_of_recognized (latitude longitude : Float64) (key : String)
    (hk : key ∈ recognizedKeys) :
    RendersProviderBlock (DisplayMapWithLocation latitude longitude key) := by
  refine ⟨startsWith_placeholder latitude longitude key, ?_,
    not_contains_unsupported latitude longitude key hk⟩
  rw [contains_iff _ _ (by decide), occurrences_block _ key hk (static_script key hk).1,
    (static_script key hk).2]
  decide

theorem fallback_not_block : ¬ RendersProviderBlock fallbackOutput := by
  intro h
  apply h.2.2
  rw [contains_iff _ _ (by decide)]
  decide

/-- C4, as stated, fails: after the placeholder the `google` result for 35.7, 51.4
does not have exactly one `<script` opening tag. -/
theorem one_script_tag_counterexample :
    occurrences "<script"
      (afterPlaceholder (DisplayMapWithLocation sampleLatitude sampleLongitude "google")) ≠ 1 := by
  rw [occurrences_block "<script" "google" (by decide) (static_script _ (by decide)).1,
    (static_script _ (by decide)).2]
  decide

/-- C4 (amended): every result starts with the fixed placeholder element; for each of
the nine recognized keys the text `<div id='map'` occurs exactly once in the result
(hence at position 0), and what follows the placeholder has exactly two `<script`
opening tags: exactly one inline `<script>` tag and exactly one `<script` tag that
carries a `src` attribute (written `<script src='` or
`<script type='text/javascript' src='`), which is the only `src` attribute there. -/
theorem placeholder_once_then_two_scripts (latitude longitude : Float64) (p : String) :
    StartsWith (DisplayMapWithLocation latitude longitude p)
        "<div id='map' style='width: 100%; height: 400px;'></div>" ∧
      (p ∈ recognizedKeys →
        StartsWith (DisplayMapWithLocation latitude longitude p) "<div id='map'" ∧
        occurrences "<div id='map'" (DisplayMapWithLocation latitude longitude p) = 1 ∧
        occurrences "<script"
          (afterPlaceholder (DisplayMapWithLocation latitude longitude p)) = 2 ∧
        occurrences "<script>"
          (afterPlaceholder (DisplayMapWithLocation latitude longitude p)) = 1 ∧
        occurrences "<script src='"
            (afterPlaceholder (DisplayMapWithLocation latitude longitude p)) +
          occurrences "<script type='text/javascript' src='"
            (afterPlaceholder (DisplayMapWithLocation latitude longitude p)) = 1 ∧
        occurrences " src='"
          (afterPlaceholder (DisplayMapWithLocation latitude longitude p)) = 1) := by
  have hs := startsWith_placeholder latitude longitude p
  refine ⟨hs, fun hk => ⟨?_, ?_, ?_, ?_, ?_, ?_⟩⟩
  · have h0 : "<div id='map'".data <+: placeholder.data := by decide
    exact h0.trans hs
  · rw [occurrences_display _ p hk (static_div p hk).1, (static_div p hk).2]
  · rw [occurrences_block _ p hk (static_script p hk).1, (static_script p hk).2]
  · obtain ⟨a1, a2, _⟩ := static_script_kinds p hk
    rw [occurrences_block _ p hk a1, a2]
  · obtain ⟨_, _, _, _, a5, a6, a7⟩ := static_script_kinds p hk
    rw [occurrences_block _ p hk a5, occurrences_block _ p hk a6, a7]
  · obtain ⟨_, _, a3, a4, _⟩ := static_script_kinds p hk
    rw [occurrences_block _ p hk a3, a4]

/-- C4 (amended) at the key `bing` with coordinates 35.7, 51.4. -/
theorem placeholder_once_then_two_scripts_witness :
    "bing" ∈ recognizedKeys ∧
      occurrences "<div id='map'"
        (DisplayMapWithLocation sampleLatitude sampleLongitude "bing") = 1 ∧
      occurrences "<script"
        (afterPlaceholder (DisplayMapWithLocation sampleLatitude sampleLongitude "bing")) = 2 ∧
      occurrences "<script>"
        (afterPlaceholder (DisplayMapWithLocation sampleLatitude sampleLongitude "bing")) = 1 ∧
      occurrences "<script src='"
          (afterPlaceholder (DisplayMapWithLocation sampleLatitude sampleLongitude "bing")) +
        occurrences "<script type='text/javascript' src='"
          (afterPlaceholder (DisplayMapWithLocation sampleLatitude sampleLongitude "bing")) = 1 ∧
      occurrences " src='"
        (afterPlaceholder (DisplayMapWithLocation sampleLatitude sampleLongitude "bing")) = 1 :=
  ⟨by decide,
    ((placeholder_once_then_two_scripts sampleLatitude sampleLongitude "bing").2
      (by decide)).2⟩

theorem selectedCase_none (p : String) (h : selectedCase p = none) :
    p ≠ "" ∧ p ∉ recognizedKeys := by
  unfold selectedCase at h
  by_cases hp : p = ""
  · subst hp
    exact absurd h (by decide)
  · simp only [hp, if_false] at h
    refine ⟨hp, ?_⟩
    intro hk
    simp [hk] at h

theorem selectedCase_some (p k : String) (h : selectedCase p = some k) (latitude longitude : Float64) :
    k ∈ recognizedKeys ∧
      DisplayMapWithLocation latitude longitude p = DisplayMapWithLocation latitude longitude k := by
  unfold selectedCase at h
  by_cases hp : p = ""
  · subst hp
    have hk : k = "google" := by
      have h' : some "google" = some k := h
      exact (Option.some.inj h').symm
    subst hk
    exact ⟨by decide, rfl⟩
  · simp only [hp, if_false] at h
    by_cases hk : p ∈ recognizedKeys
    · simp only [hk, if_true] at h
      have := Option.some.inj h
      subst this
      exact ⟨hk, rfl⟩
    · simp [hk] at h

/-- C5: the provider string is never interpolated: every result is the fallback
output or the result for one of the nine recognized keys with the same coordinates;
for fixed coordinates all results lie in a list of ten texts; and two provider strings
that select the same case of the switch give identical results. -/
theorem provider_never_interpolated (latitude longitude : Float64) (p : String) :
    (DisplayMapWithLocation latitude longitude p = fallbackOutput ∨
      ∃ k ∈ recognizedKeys,
        DisplayMapWithLocation latitude longitude p =
          DisplayMapWithLocation latitude longitude k) ∧
    (∃ values : List String, values.length = 10 ∧
      ∀ q : String, DisplayMapWithLocation latitude longitude q ∈ values) ∧
    (∀ q : String, selectedCase p = selectedCase q →
      DisplayMapWithLocation latitude longitude p =
        DisplayMapWithLocation latitude longitude q) := by
  have key : ∀ q : String, DisplayMapWithLocation latitude longitude q = fallbackOutput ∨
      ∃ k ∈ recognizedKeys, DisplayMapWithLocation latitude longitude q =
        DisplayMapWithLocation latitude longitude k := by
    intro q
    cases hq : selectedCase q with
    | none =>
      obtain ⟨h1, h2⟩ := selectedCase_none q hq
      exact Or.inl (display_unrecognized latitude longitude q h1 h2)
    | some k =>
      obtain ⟨h1, h2⟩ := selectedCase_some q k hq latitude longitude
      exact Or.inr ⟨k, h1, h2⟩
  refine ⟨key p, ⟨fallbackOutput :: recognizedKeys.map (DisplayMapWithLocation latitude longitude),
    rfl, ?_⟩, ?_⟩
  · intro q
    rcases key q with h | ⟨k, hk, h⟩
    · rw [h]; exact List.mem_cons_self _ _
    · rw [h]; exact List.mem_cons_of_mem _ (List.mem_map_of_mem _ hk)
  · intro q hpq
    cases hp : selectedCase p with
    | none =>
      obtain ⟨h1, h2⟩ := selectedCase_none p hp
      obtain ⟨h3, h4⟩ := selectedCase_none q (hpq ▸ hp)
      rw [display_unrecognized latitude longitude p h1 h2,
        display_unrecognized latitude longitude q h3 h4]
    | some k =>
      obtain ⟨_, h2⟩ := selectedCase_some p k hp latitude longitude
      obtain ⟨_, h4⟩ := selectedCase_some q k (hpq ▸ hp) latitude longitude
      rw [h2, h4]

/-- C5 at the provider strings `foo` and `Bar`, which both select the default case. -/
theorem provider_never_interpolated_witness :
    selectedCase "foo" = selectedCase "Bar" ∧
      DisplayMapWithLocation sampleLatitude sampleLongitude "foo" =
        DisplayMapWithLocation sampleLatitude sampleLongitude "Bar" :=
  ⟨by decide,
    (provider_never_interpolated sampleLatitude sampleLongitude "foo").2.2 "Bar" (by decide)⟩

/-- C6: `ShowAvailableMaps` takes no input and returns the same mapping on every
call; it has exactly nine entries with pairwise distinct keys, the keys are exactly
the nine provider keys, and each key is mapped to its fixed display name. -/
theorem showAvailableMaps_fixed :
    (∀ u v : Unit, ShowAvailableMaps u = ShowAvailableMaps v) ∧
    (ShowAvailableMaps ()).length = 9 ∧
    (keysOf (ShowAvailableMaps ())).Nodup ∧
    (∀ k : String, k ∈ keysOf (ShowAvailableMaps ()) ↔
      k = "google" ∨ k = "cedarmaps" ∨ k = "neshan" ∨ k = "mapir" ∨ k = "parsimap" ∨
        k = "mapbox" ∨ k = "osm" ∨ k = "bing" ∨ k = "yandex") ∧
    (ShowAvailableMaps ()).lookup "google" = some "Google Maps" ∧
    (ShowAvailableMaps ()).lookup "cedarmaps" = some "CedarMaps (Iran)" ∧
    (ShowAvailableMaps ()).lookup "neshan" = some "Neshan (Iran)" ∧
    (ShowAvailableMaps ()).lookup "mapir" = some "Map.ir (Iran)" ∧
    (ShowAvailableMaps ()).lookup "parsimap" = some "ParsiMap (Iran)" ∧
    (ShowAvailableMaps ()).lookup "mapbox" = some "Mapbox" ∧
    (ShowAvailableMaps ()).lookup "osm" = some "OpenStreetMap" ∧
    (ShowAvailableMaps ()).lookup "bing" = some "Bing Maps" ∧
    (ShowAvailableMaps ()).lookup "yandex" = some "Yandex Maps" := by
  refine ⟨fun _ _ => rfl, rfl, by decide, ?_, by decide, by decide, by decide, by decide,
    by decide, by decide, by decide, by decide, by decide⟩
  intro k
  simp [keysOf, ShowAvailableMaps]

/-- C7, as stated, fails at the empty provider string: it is not a key of
`ShowAvailableMaps`, yet the result is a provider block and not the fallback. -/
theorem catalog_keys_match_counterexample :
    ¬ ("" ∈ keysOf (ShowAvailableMaps ()) ↔
      RendersProviderBlock (DisplayMapWithLocation sampleLatitude sampleLongitude "")) := by
  intro h
  have h1 : RendersProviderBlock (DisplayMapWithLocation sampleLatitude sampleLongitude "") :=
    renders_of_recognized sampleLatitude sampleLongitude "google" (by decide)
  exact absurd (h.2 h1) (by decide)

/-- C7 (amended): for every non-empty provider string and all coordinates, the string
is a key of `ShowAvailableMaps` exactly when the result is a provider block rather
than the fallback, it is not a key exactly when the result is the fallback output,
and for a key the result is the placeholder followed by the expanded format of that
key at the given coordinates; the empty string is not a key, and its result is the
result for `google`: the placeholder followed by the expanded `google` format. -/
theorem catalog_keys_match_nonempty (latitude longitude : Float64) (p : String) :
    (p ≠ "" →
      (p ∈ keysOf (ShowAvailableMaps ()) ↔
        RendersProviderBlock (DisplayMapWithLocation latitude longitude p)) ∧
      (p ∉ keysOf (ShowAvailableMaps ()) ↔
        DisplayMapWithLocation latitude longitude p = fallbackOutput) ∧
      (p ∈ keysOf (ShowAvailableMaps ()) →
        DisplayMapWithLocation latitude longitude p =
          placeholder ++ Sprintf (formatOf p) (operandsOf p latitude longitude))) ∧
    ("" ∉ keysOf (ShowAvailableMaps ()) ∧
      DisplayMapWithLocation latitude longitude "" =
        DisplayMapWithLocation latitude longitude "google" ∧
      DisplayMapWithLocation latitude longitude "" =
        placeholder ++ Sprintf googleTemplate [latitude, longitude] ∧
      RendersProviderBlock (DisplayMapWithLocation latitude longitude "")) := by
  refine ⟨fun hne => ?_, by decide, rfl, rfl,
    renders_of_recognized latitude longitude "google" (by decide)⟩
  rw [keysOf_catalog]
  have hfall : p ∉ recognizedKeys →
      DisplayMapWithLocation latitude longitude p = fallbackOutput :=
    fun hk => display_unrecognized latitude longitude p hne hk
  refine ⟨⟨fun hk => renders_of_recognized latitude longitude p hk, ?_⟩, ⟨hfall, ?_⟩,
    fun hk => display_recognized latitude longitude p hk⟩
  · intro h
    by_contra hk
    rw [hfall hk] at h
    exact fallback_not_block h
  · intro h hk
    have hr := renders_of_recognized latitude longitude p hk
    rw [h] at hr
    exact fallback_not_block hr

/-- C7 (amended) at the provider strings `osm` (a key) and `Google` (not a key). -/
theorem catalog_keys_match_nonempty_witness :
    ("osm" ≠ "" ∧ "osm" ∈ keysOf (ShowAvailableMaps ()) ∧
      RendersProviderBlock (DisplayMapWithLocation sampleLatitude sampleLongitude "osm") ∧
      DisplayMapWithLocation sampleLatitude sampleLongitude "osm" =
        placeholder ++ Sprintf (formatOf "osm")
          (operandsOf "osm" sampleLatitude sampleLongitude)) ∧
    ("Google" ≠ "" ∧ "Google" ∉ keysOf (ShowAvailableMaps ()) ∧
      DisplayMapWithLocation sampleLatitude sampleLongitude "Google" = fallbackOutput) :=
  ⟨⟨by decide, by decide,
      ((catalog_keys_match_nonempty sampleLatitude sampleLongitude "osm").1 (by decide)).1.1
        (by decide),
      ((catalog_keys_match_nonempty sampleLatitude sampleLongitude "osm").1 (by decide)).2.2
        (by decide)⟩,
    ⟨by decide, by decide,
      ((catalog_keys_match_nonempty sampleLatitude sampleLongitude "Google").1
        (by decide)).2.1.1 (by decide)⟩⟩

theorem contains_of_eq (out s0 pat rest : String) (h : out = s0 ++ pat ++ rest) :
    Contains out pat := by
  refine ⟨s0.data, rest.data, ?_⟩
  rw [h]
  simp [String.data_append]

set_option maxRecDepth 100000 in
theorem sample_renderings :
    0 < occurrences "center: [51.400000, 35.700000]"
        (DisplayMapWithLocation sampleLatitude sampleLongitude "mapir") ∧
      0 < occurrences "setView([35.700000, 51.400000], 15)"
        (DisplayMapWithLocation sampleLatitude sampleLongitude "osm") := by
  decide

/-- C3: writing F for the `%f` rendering, the `mapir` and `mapbox` results emit every
interpolated pair as F(longitude) then F(latitude), both in `center: [..]` and in
`setLngLat([..])`, and the results for the seven other keys emit every interpolated
pair as F(latitude) then F(longitude); with latitude 35.7 and longitude 51.4 the
`mapir` result contains `center: [51.400000, 35.700000]` and the `osm` result contains
`setView([35.700000, 51.400000], 15)`. -/
theorem coordinate_order :
    TwoPairForm "mapir" true "center: [" "]" "setLngLat([" "])" ∧
    TwoPairForm "mapbox" true "center: [" "]" "setLngLat([" "])" ∧
    OnePairForm "google" "\x7blat: " ", lng: " "\x7d" ∧
    TwoPairForm "cedarmaps" false "center: [" "]" "L.marker([" "])" ∧
    TwoPairForm "neshan" false "center: [" "]" "L.marker([" "])" ∧
    TwoPairForm "parsimap" false "setView([" "], 15);" "L.marker([" "])" ∧
    TwoPairForm "osm" false "setView([" "], 15);" "L.marker([" "])" ∧
    OnePairForm "bing" "new Microsoft.Maps.Location(" ", " ")" ∧
    TwoPairForm "yandex" false "center: [" "]" "new ymaps.Placemark([" "]" ∧
    (∀ latitude longitude : Float64,
      orderedPair true latitude longitude = fmtF longitude ++ ", " ++ fmtF latitude ∧
      orderedPair false latitude longitude = fmtF latitude ++ ", " ++ fmtF longitude) ∧
    fmtF sampleLatitude = "35.700000" ∧ fmtF sampleLongitude = "51.400000" ∧
    Contains (DisplayMapWithLocation sampleLatitude sampleLongitude "mapir")
      "center: [51.400000, 35.700000]" ∧
    Contains (DisplayMapWithLocation sampleLatitude sampleLongitude "osm")
      "setView([35.700000, 51.400000], 15)" := by
  obtain ⟨h1, h2, h3, h4, h5, h6, h7, h8, h9⟩ := pair_forms
  refine ⟨twoPairForm_of_check _ _ _ _ _ _ (by decide) h1,
    twoPairForm_of_check _ _ _ _ _ _ (by decide) h2,
    onePairForm_of_check _ _ _ _ (by decide) h8,
    twoPairForm_of_check _ _ _ _ _ _ (by decide) h3,
    twoPairForm_of_check _ _ _ _ _ _ (by decide) h4,
    twoPairForm_of_check _ _ _ _ _ _ (by decide) h5,
    twoPairForm_of_check _ _ _ _ _ _ (by decide) h6,
    onePairForm_of_check _ _ _ _ (by decide) h9,
    twoPairForm_of_check _ _ _ _ _ _ (by decide) h7,
    fun _ _ => ⟨rfl, rfl⟩, by decide, by decide, ?_, ?_⟩
  · exact (contains_iff _ _ (by decide)).2 sample_renderings.1
  · exact (contains_iff _ _ (by decide)).2 sample_renderings.2

/-- C8, as stated, fails at the key `osm`: its provider block for 35.7, 51.4 has no
substring beginning with `YOUR_`. -/
theorem credential_placeholder_counterexample :
    ¬ Contains (afterPlaceholder (DisplayMapWithLocation sampleLatitude sampleLongitude "osm"))
      "YOUR_" := by
  rw [contains_iff _ _ (by decide),
    occurrences_block "YOUR_" "osm" (by decide) (static_your _ (by decide)).1,
    (static_your _ (by decide)).2.2 rfl]
  decide

/-- C8 (amended): for all coordinates, the provider block of each recognized key other
than `osm` contains a substring `YOUR_`, namely the placeholder credential listed for
it in `credentialOf`; the `osm` block contains no `YOUR_`. -/
theorem credential_placeholders (latitude longitude : Float64) :
    (∀ key ∈ recognizedKeys, key ≠ "osm" →
      Contains (afterPlaceholder (DisplayMapWithLocation latitude longitude key)) "YOUR_") ∧
    (∀ kc ∈ credentialOf, StartsWith kc.2 "YOUR_" ∧
      Contains (afterPlaceholder (DisplayMapWithLocation latitude longitude kc.1)) kc.2) ∧
    ¬ Contains (afterPlaceholder (DisplayMapWithLocation latitude longitude "osm")) "YOUR_" := by
  refine ⟨?_, ?_, ?_⟩
  · intro key hk hne
    obtain ⟨h1, h2, _⟩ := static_your key hk
    rw [contains_iff _ _ (by decide), occurrences_block _ key hk h1]
    exact h2 hne
  · intro kc hkc
    obtain ⟨hk, hne, h1, h2, h3⟩ := static_credentials kc hkc
    refine ⟨?_, ?_⟩
    · exact List.isPrefixOf_iff_prefix.1 h3
    · rw [contains_iff _ _ hne, occurrences_block _ kc.1 hk h1]
      exact h2
  · rw [contains_iff _ _ (by decide),
      occurrences_block "YOUR_" "osm" (by decide) (static_your _ (by decide)).1,
      (static_your _ (by decide)).2.2 rfl]
    decide

/-- C8 (amended) at the keys `google` and `yandex` with coordinates 35.7, 51.4. -/
theorem credential_placeholders_witness :
    ("google" ∈ recognizedKeys ∧ "google" ≠ "osm" ∧
      Contains (afterPlaceholder (DisplayMapWithLocation sampleLatitude sampleLongitude "google"))
        "YOUR_") ∧
    (("yandex", "YOUR_YANDEX_API_KEY") ∈ credentialOf ∧
      Contains (afterPlaceholder (DisplayMapWithLocation sampleLatitude sampleLongitude "yandex"))
        "YOUR_YANDEX_API_KEY") :=
  ⟨⟨by decide, by decide,
      (credential_placeholders sampleLatitude sampleLongitude).1 "google" (by decide) (by decide)⟩,
    ⟨by decide,
      ((credential_placeholders sampleLatitude sampleLongitude).2.1
        ("yandex", "YOUR_YANDEX_API_KEY") (by decide)).2⟩⟩

/-- C9: for each of the nine recognized keys and all coordinates the result has
exactly one marker-creation call in total; and for the seven keys whose marker is
given a coordinate pair, that pair is the same text, in the same order, as the pair
of the map centre in the same result. -/
theorem single_marker (latitude longitude : Float64) :
    (∀ key ∈ recognizedKeys,
      (markerCalls.map fun m =>
        occurrences m (DisplayMapWithLocation latitude longitude key)).sum = 1) ∧
    (∀ e ∈ markerAnchors, ∃ s0 s1 s2 pair : String,
      (pair = pairText latitude longitude ∨ pair = pairText longitude latitude) ∧
      DisplayMapWithLocation latitude longitude e.1 =
        s0 ++ e.2.1 ++ pair ++ "]" ++ s1 ++ e.2.2 ++ pair ++ "]" ++ s2) := by
  constructor
  · intro key hk
    obtain ⟨h1, h2⟩ := static_markers key hk
    rw [← h2]
    congr 1
    apply List.map_congr_left
    intro m hm
    exact occurrences_display m key hk (h1 m hm) latitude longitude
  · intro e he
    obtain ⟨hk, hc⟩ := marker_forms e he
    obtain ⟨s0, s1, s2, h⟩ := twoPairForm_of_check _ _ _ _ _ _ hk hc
    refine ⟨s0, s1, s2, orderedPair (decide (e.1 = "mapir" ∨ e.1 = "mapbox")) latitude longitude,
      ?_, h latitude longitude⟩
    unfold orderedPair
    split
    · exact Or.inr rfl
    · exact Or.inl rfl

/-- C9 at the key `yandex` with coordinates 35.7, 51.4. -/
theorem single_marker_witness :
    ("yandex" ∈ recognizedKeys ∧
      (markerCalls.map fun m =>
        occurrences m (DisplayMapWithLocation sampleLatitude sampleLongitude "yandex")).sum = 1) ∧
    (("yandex", "center: [", "new ymaps.Placemark([") ∈ markerAnchors ∧
      ∃ s0 s1 s2 pair : String,
        (pair = pairText sampleLatitude sampleLongitude ∨
          pair = pairText sampleLongitude sampleLatitude) ∧
        DisplayMapWithLocation sampleLatitude sampleLongitude "yandex" =
          s0 ++ "center: [" ++ pair ++ "]" ++ s1 ++ "new ymaps.Placemark([" ++ pair ++ "]"
            ++ s2) :=
  ⟨⟨by decide, (single_marker sampleLatitude sampleLongitude).1 "yandex" (by decide)⟩,
    ⟨by decide,
      (single_marker sampleLatitude sampleLongitude).2
        ("yandex", "center: [", "new ymaps.Placemark([") (by decide)⟩⟩

/-- C10: for all coordinates, the `neshan` result contains `zoom: 14` and not
`zoom: 15`; the `google`, `cedarmaps`, `mapir`, `mapbox`, `bing` and `yandex` results
contain `zoom: 15` and not `zoom: 14`; the `parsimap` and `osm` results contain
`], 15);`, as the end of the `setView` call on the coordinate pair. -/
theorem fixed_zoom (latitude longitude : Float64) :
    (Contains (DisplayMapWithLocation latitude longitude "neshan") "zoom: 14" ∧
      ¬ Contains (DisplayMapWithLocation latitude longitude "neshan") "zoom: 15") ∧
    (∀ key ∈ ["google", "cedarmaps", "mapir", "mapbox", "bing", "yandex"],
      Contains (DisplayMapWithLocation latitude longitude key) "zoom: 15" ∧
      ¬ Contains (DisplayMapWithLocation latitude longitude key) "zoom: 14") ∧
    (∀ key ∈ ["parsimap", "osm"],
      Contains (DisplayMapWithLocation latitude longitude key) "], 15);" ∧
      Contains (DisplayMapWithLocation latitude longitude key)
        ("setView([" ++ pairText latitude longitude ++ "], 15);")) := by
  have count : ∀ key ∈ recognizedKeys,
      occurrences "zoom: 14" (DisplayMapWithLocation latitude longitude key) =
          (if key = "neshan" then 1 else 0) ∧
        occurrences "zoom: 15" (DisplayMapWithLocation latitude longitude key) =
          (if key ∈ ["google", "cedarmaps", "mapir", "mapbox", "bing", "yandex"] then 1 else 0) ∧
        occurrences "], 15);" (DisplayMapWithLocation latitude longitude key) =
          (if key ∈ ["parsimap", "osm"] then 1 else 0) := by
    intro key hk
    obtain ⟨a1, a2, a3, b1, b2, b3⟩ := static_zoom key hk
    exact ⟨(occurrences_display _ key hk a1 latitude longitude).trans b1,
      (occurrences_display _ key hk a2 latitude longitude).trans b2,
      (occurrences_display _ key hk a3 latitude longitude).trans b3⟩
  refine ⟨?_, ?_, ?_⟩
  · obtain ⟨c1, c2, _⟩ := count "neshan" (by decide)
    rw [contains_iff _ _ (by decide), contains_iff _ _ (by decide), c1, c2]
    decide
  · intro key hk
    have hk' : key ∈ recognizedKeys := by
      revert key
      decide
    obtain ⟨c1, c2, _⟩ := count key hk'
    have hn : key ≠ "neshan" := by
      rintro rfl
      exact absurd hk (by decide)
    rw [contains_iff _ _ (by decide), contains_iff _ _ (by decide), c1, c2, if_pos hk, if_neg hn]
    decide
  · intro key hk
    have hk' : key ∈ recognizedKeys := by
      revert key
      decide
    obtain ⟨_, _, c3⟩ := count key hk'
    refine ⟨?_, ?_⟩
    · rw [contains_iff _ _ (by decide), c3, if_pos hk]
      decide
    · have hform : TwoPairForm key false "setView([" "], 15);" "L.marker([" "])" := by
        simp only [List.mem_cons, List.mem_singleton, List.not_mem_nil, or_false] at hk
        rcases hk with rfl | rfl
        · exact twoPairForm_of_check _ _ _ _ _ _ (by decide) pair_forms.2.2.2.2.1
        · exact twoPairForm_of_check _ _ _ _ _ _ (by decide) pair_forms.2.2.2.2.2.1
      obtain ⟨s0, s1, s2, h⟩ := hform
      apply contains_of_eq _ s0 _
        (s1 ++ "L.marker([" ++ orderedPair false latitude longitude ++ "])" ++ s2)
      rw [h latitude longitude]
      apply String.ext
      simp [String.data_append, orderedPair]

/-- C10 at the keys `bing` and `osm` with coordinates 35.7, 51.4. -/
theorem fixed_zoom_witness :
    ("bing" ∈ ["google", "cedarmaps", "mapir", "mapbox", "bing", "yandex"] ∧
      Contains (DisplayMapWithLocation sampleLatitude sampleLongitude "bing") "zoom: 15" ∧
      ¬ Contains (DisplayMapWithLocation sampleLatitude sampleLongitude "bing") "zoom: 14") ∧
    ("osm" ∈ ["parsimap", "osm"] ∧
      Contains (DisplayMapWithLocation sampleLatitude sampleLongitude "osm") "], 15);") :=
  ⟨⟨by decide, (fixed_zoom sampleLatitude sampleLongitude).2.1 "bing" (by decide)⟩,
    ⟨by decide, ((fixed_zoom sampleLatitude sampleLongitude).2.2 "osm" (by decide)).1⟩⟩

end Mapping
